import Mathlib

/-!
# Verification of the Product Directory Service (in-memory Directory Engine)

Shallow embedding of the Angular mock API service (`ProductMockService`) and of
the listing view's error-fallback path, together with proofs of the spec's
testable properties.

Conventions of the embedding:
* TypeScript `number` ids / page numbers become `Int`; prices (decimal
  numbers with two fraction digits, e.g. `3499.90`) become `Int` counts of
  cents — the code only ever compares prices, so the scaling preserves every
  behavior.
* `Date` timestamps become `Nat` (encoded `YYYYMMDDhhmmss`); operations that
  call `new Date()` take an explicit `now : Nat` argument.
* An optional TypeScript property becomes `Option`; `undefined` is `none`.
* JavaScript truthiness on strings/numbers (`if (filters?.category)`,
  `pagination?.page || 1`, `!id`) is modelled explicitly at each use site.
* An rxjs `Observable` pipeline is modelled by the pair
  (outcome delivered to the subscriber, state after the emission): each
  service method becomes `… → MockState → Except JsError α × MockState`.
* The `ApiError.timestamp` field (`new Date()`, pure wall-clock metadata) is
  not carried in the error value; all other `createApiError` fields are.
-/

/-- A product entity, as stored by `ProductMockService.mockProducts`. -/
structure Product where
  id : Int
  name : String
  description : Option String
  price : Int
  category : String
  active : Bool
  imageUrl : Option String
  createdAt : Nat
  updatedAt : Nat
deriving DecidableEq, Repr, Inhabited

/-- `ProductFilter` from `product.service.ts`: all predicates optional. -/
structure ProductFilter where
  category : Option String := none
  minPrice : Option Int := none
  maxPrice : Option Int := none
  active : Option Bool := none
  search : Option String := none
deriving DecidableEq, Repr, Inhabited

/-- `PaginationParams` from `product.service.ts`. -/
structure PaginationParams where
  page : Option Int := none
  pageSize : Option Int := none
deriving DecidableEq, Repr, Inhabited

/-- `PaginatedResponse<Product>` envelope. -/
structure PaginatedResponse where
  data : List Product
  currentPage : Int
  pageSize : Int
  totalItems : Int
  totalPages : Int
  hasNext : Bool
  hasPrevious : Bool
deriving DecidableEq, Repr, Inhabited

/-- `CreateProduct` payload: name, price, category required. -/
structure CreateProduct where
  name : String
  description : Option String := none
  price : Int
  category : String
  imageUrl : Option String := none
  active : Option Bool := none
deriving DecidableEq, Repr, Inhabited

/-- `UpdateProduct` payload: every field optional (partial update). -/
structure UpdateProduct where
  name : Option String := none
  description : Option String := none
  price : Option Int := none
  category : Option String := none
  imageUrl : Option String := none
  active : Option Bool := none
deriving DecidableEq, Repr, Inhabited

/-- View `CreateProduct` as the all-optional shape that
`validateProductData(data: CreateProduct | UpdateProduct)` consumes. -/
def CreateProduct.toData (c : CreateProduct) : UpdateProduct :=
  { name := some c.name, description := c.description, price := some c.price,
    category := some c.category, imageUrl := c.imageUrl, active := c.active }

/-- Errors surfaced by the mock service: structured `ApiError` values built by
`createApiError` (statusCode, message, details, path) and the one bare
`throw new Error(...)` in `getProducts`. -/
inductive JsError where
  | apiError (statusCode : Int) (message : String) (details : Option String)
      (path : String)
  | plainError (message : String)
deriving DecidableEq, Repr

deriving instance DecidableEq for Except

/-- `createApiError`: fixed path `/api/products`. -/
def createApiError (statusCode : Int) (message : String)
    (details : Option String) : JsError :=
  JsError.apiError statusCode message details "/api/products"

/-- Mutable state of `ProductMockService`: the in-memory dataset, the identity
counter, the value cached in `productsSubject` (the Change Notification Bus)
and the `loadingSubject` flag. -/
structure MockState where
  mockProducts : List Product
  nextId : Int
  subjectCache : List Product
  loading : Bool
deriving DecidableEq, Repr, Inhabited

/-! ## The seed dataset (`mockProducts` initializer) -/

def product1 : Product :=
  { id := 1, name := "Notebook Dell Inspiron 15",
    description := some "Notebook com processador Intel Core i5, 8GB RAM, 256GB SSD",
    price := 349990, category := "ELETRONICOS", active := true,
    imageUrl := some "https://i.dell.com/is/image/DellContent/laptop-inspiron-15-3520.psd",
    createdAt := 20240115103000, updatedAt := 20241020144500 }

def product2 : Product :=
  { id := 2, name := "Mouse Logitech MX Master 3",
    description := some "Mouse sem fio ergonômico com sensor de alta precisão",
    price := 44990, category := "ELETRONICOS", active := true,
    imageUrl := some "https://m.media-amazon.com/images/I/61+OT7FPABL.jpg",
    createdAt := 20240210091500, updatedAt := 20241018162000 }

def product3 : Product :=
  { id := 3, name := "Teclado Mecânico Keychron K2",
    description := some "Teclado mecânico sem fio com switches Red, RGB",
    price := 65990, category := "ELETRONICOS", active := true,
    imageUrl := some "https://carrefourbr.vtexassets.com/arquivos/ids/198365397/image-0.jpg",
    createdAt := 20240305110000, updatedAt := 20241015133000 }

def product4 : Product :=
  { id := 4, name := "Monitor LG UltraWide 29\"",
    description := some "Monitor IPS 29 polegadas, resolução 2560x1080, 75Hz",
    price := 129990, category := "ELETRONICOS", active := true,
    imageUrl := some "https://m.media-amazon.com/images/I/51mHapX90SL._AC_UF894,1000_QL80_.jpg",
    createdAt := 20240412084500, updatedAt := 20241010101500 }

def product5 : Product :=
  { id := 5, name := "Camiseta Nike Dry-Fit",
    description := some "Camiseta esportiva com tecnologia de secagem rápida",
    price := 12990, category := "ROUPAS", active := true,
    imageUrl := some "https://cdn.awsli.com.br/2500x2500/1714/1714539/produto/301464319/camiseta.jpeg",
    createdAt := 20240520153000, updatedAt := 20241005170000 }

def product6 : Product :=
  { id := 6, name := "Livro: Clean Code",
    description := some "Guia essencial sobre boas práticas de programação por Robert C. Martin",
    price := 8990, category := "LIVROS", active := true,
    imageUrl := some "https://media.licdn.com/dms/image/v2/C4D12AQElMcNEch38WQ/cover.jpg",
    createdAt := 20240608120000, updatedAt := 20240930093000 }

def product7 : Product :=
  { id := 7, name := "Sofá Retrátil 3 Lugares",
    description := some "Sofá confortável com tecido suede, cor cinza",
    price := 249990, category := "CASA", active := true,
    imageUrl := some "https://www.camainbox.com.br/media/catalog/product/sofa_retratil.jpg",
    createdAt := 20240715142000, updatedAt := 20240925114500 }

def product8 : Product :=
  { id := 8, name := "Bola de Futebol Adidas",
    description := some "Bola oficial para campo, tamanho padrão",
    price := 19990, category := "ESPORTES", active := false,
    imageUrl := some "https://images.tcdn.com.br/img/img_prod/734952/bola_adidas.jpeg",
    createdAt := 20240801100000, updatedAt := 20240920163000 }

/-- The fixed seed catalog. -/
def seedProducts : List Product :=
  [product1, product2, product3, product4, product5, product6, product7, product8]

/-- Service state right after construction: dataset seeded, `productsSubject`
initialized with the same list (`new BehaviorSubject<Product[]>(this.mockProducts)`),
`nextId = 9`, `loadingSubject` initialized with `false`. -/
def initialState : MockState :=
  { mockProducts := seedProducts, nextId := 9, subjectCache := seedProducts,
    loading := false }

/-! ## Filtering (`getProducts` filter pipeline) -/

/-- JavaScript `String.prototype.trim()`: strip whitespace from both ends
(computed on the character list so the kernel can evaluate it). -/
def jsTrim (s : String) : String :=
  String.mk
    (((s.toList.dropWhile Char.isWhitespace).reverse.dropWhile
        Char.isWhitespace).reverse)

/-- Case-insensitive substring test: JavaScript
`a.toLowerCase().includes(b.toLowerCase())`. -/
def strIncludesLower (hay needle : String) : Bool :=
  decide ((needle.toList.map Char.toLower) <:+: (hay.toList.map Char.toLower))

/-- The filter pipeline of `getProducts`: for each supplied (and, for strings,
truthy) filter field a `filter` pass is pushed, and the pushed passes are
applied in order category, minPrice, maxPrice, active, search
(`filterFunctions.reduce((prods, fn) => fn(prods), filtered)`). -/
def applyFilters (filters : Option ProductFilter) (products : List Product) :
    List Product :=
  let l1 := match filters.bind ProductFilter.category with
    | some c => if c = "" then products
        else products.filter (fun p => p.category == c)
    | none => products
  let l2 := match filters.bind ProductFilter.minPrice with
    | some m => l1.filter (fun p => m ≤ p.price)
    | none => l1
  let l3 := match filters.bind ProductFilter.maxPrice with
    | some m => l2.filter (fun p => p.price ≤ m)
    | none => l2
  let l4 := match filters.bind ProductFilter.active with
    | some a => l3.filter (fun p => p.active == a)
    | none => l3
  match filters.bind ProductFilter.search with
  | some q => if q = "" then l4
      else l4.filter (fun p =>
        strIncludesLower p.name q ||
          (match p.description with
            | some d => strIncludesLower d q
            | none => false))
  | none => l4

/-- Conjunctive characterization of the same filter (one boolean predicate per
product); `applyFilters_eq_filter` below proves the pipeline equal to a single
`List.filter` of this predicate, i.e. all specified filters are ANDed. -/
def matchesFilter (filters : Option ProductFilter) (p : Product) : Bool :=
  (match filters.bind ProductFilter.category with
    | some c => if c = "" then true else p.category == c
    | none => true) &&
  (match filters.bind ProductFilter.minPrice with
    | some m => decide (m ≤ p.price)
    | none => true) &&
  (match filters.bind ProductFilter.maxPrice with
    | some m => decide (p.price ≤ m)
    | none => true) &&
  (match filters.bind ProductFilter.active with
    | some a => p.active == a
    | none => true) &&
  (match filters.bind ProductFilter.search with
    | some q => if q = "" then true
        else strIncludesLower p.name q ||
          (match p.description with
            | some d => strIncludesLower d q
            | none => false)
    | none => true)

/-! ## Pagination (`getProducts` tail) -/

/-- JavaScript `x || d` for an optional numeric parameter: `undefined` and `0`
are falsy and give the default. -/
def jsOrDefault (x : Option Int) (d : Int) : Int :=
  match x with
  | none => d
  | some v => if v = 0 then d else v

/-- `Math.ceil(a / b)` over integers, for `b ≠ 0` (`pageSize` is never `0`
after `||`-defaulting, so the `b = 0` Infinity case of JavaScript is
unreachable). `Int` division is Euclidean division, which agrees with real
floor division when the divisor is positive. -/
def jsCeilDiv (a b : Int) : Int :=
  if 0 ≤ b then -((-a) / b) else -(a / (-b))

/-- JavaScript `Array.prototype.slice(start, stop)` (negative indices count
from the end, indices clamped to `[0, length]`). -/
def jsSlice {α : Type} (l : List α) (start stop : Int) : List α :=
  let len : Int := l.length
  let s := if start < 0 then max (len + start) 0 else min start len
  let e := if stop < 0 then max (len + stop) 0 else min stop len
  (l.drop s.toNat).take (e - s).toNat

/-- `GET /api/products` (`ProductMockService.getProducts`). Returns the outcome
delivered to the subscriber and the state after the emission. The
`Array.isArray` guard on `mockProducts` cannot fire in the embedding (the
dataset is always a list), so the 500 branch is not represented. -/
def getProducts (filters : Option ProductFilter)
    (pagination : Option PaginationParams) (s : MockState) :
    Except JsError PaginatedResponse × MockState :=
  let s1 : MockState := { s with loading := true }
  let filtered := applyFilters filters s.mockProducts
  let page := jsOrDefault (pagination.bind PaginationParams.page) 1
  let pageSize := jsOrDefault (pagination.bind PaginationParams.pageSize) 10
  let totalItems : Int := filtered.length
  let totalPages := jsCeilDiv totalItems pageSize
  if page < 1 then
    (Except.error (JsError.plainError "Page must be greater than 0"), s1)
  else
    let startIndex := (page - 1) * pageSize
    let endIndex := startIndex + pageSize
    let paginatedData := jsSlice filtered startIndex endIndex
    let response : PaginatedResponse :=
      { data := paginatedData, currentPage := page, pageSize := pageSize,
        totalItems := totalItems, totalPages := totalPages,
        hasNext := decide (endIndex < totalItems),
        hasPrevious := decide (page > 1) }
    (Except.ok response,
      { s1 with subjectCache := paginatedData, loading := false })

/-! ## Validation (`validateProductData`) -/

/-- The fixed category enumeration (`validCategories`). -/
def validCategories : List String :=
  ["ELETRONICOS", "ROUPAS", "LIVROS", "CASA", "ESPORTES", "OUTROS"]

/-- Name block of `validateProductData`. The guard
`!isUpdate || data.name !== undefined` is the caller's `shouldValidateName`;
`!data.name || data.name.trim().length === 0` (JavaScript: `undefined` and
`""` are falsy) yields the `empty` message; the `< 3` / `> 200` branches test
the UNtrimmed `data.name.length`. -/
def nameValidationErrors (name : Option String) (isUpdate : Bool) :
    List String :=
  if !isUpdate || name.isSome then
    match name with
    | none => ["Name is required"]
    | some n =>
      if n = "" || (jsTrim n).length = 0 then ["Name is required"]
      else if n.length < 3 then ["Name must be at least 3 characters"]
      else if n.length > 200 then ["Name must not exceed 200 characters"]
      else []
  else []

/-- Price block of `validateProductData`. -/
def priceValidationErrors (price : Option Int) (isUpdate : Bool) :
    List String :=
  if !isUpdate || price.isSome then
    match price with
    | none => ["Price is required"]
    | some pr =>
      if pr < 0 then ["Price must be greater than or equal to 0"]
      else if pr > 99999999 then ["Price must not exceed 999999.99"]
      else []
  else []

/-- Category block of `validateProductData` (`!data.category` is truthiness:
`undefined` or `""`). -/
def categoryValidationErrors (category : Option String) (isUpdate : Bool) :
    List String :=
  if !isUpdate || category.isSome then
    match category with
    | none => ["Category is required"]
    | some c =>
      if c = "" then ["Category is required"]
      else if !(validCategories.contains c) then
        ["Category must be one of: " ++ String.intercalate ", " validCategories]
      else []
  else []

/-- Description block of `validateProductData`
(`data.description && data.description.length > 1000 && errors.push(…)`). -/
def descriptionValidationErrors (description : Option String) : List String :=
  match description with
  | none => []
  | some d => if d ≠ "" && d.length > 1000 then
      ["Description must not exceed 1000 characters"] else []

/-- `validateProductData`: collects the errors of all four field blocks, in
source order, into one list. -/
def validateProductData (data : UpdateProduct) (isUpdate : Bool) :
    List String :=
  nameValidationErrors data.name isUpdate ++
  priceValidationErrors data.price isUpdate ++
  categoryValidationErrors data.category isUpdate ++
  descriptionValidationErrors data.description

/-! ## CRUD operations -/

/-- `throwApiError`: builds the structured error and resets the loading flag. -/
def throwApiError (statusCode : Int) (message : String)
    (details : Option String) (s : MockState) :
    Except JsError PaginatedResponse × MockState :=
  (Except.error (createApiError statusCode message details),
    { s with loading := false })

/-- `GET /api/products/{id}` (`ProductMockService.getProductById`). -/
def getProductById (id : Int) (s : MockState) :
    Except JsError Product × MockState :=
  let s1 : MockState := { s with loading := true }
  if id = 0 || id < 1 then
    (Except.error (createApiError 400 "Bad Request" (some "Invalid product ID")),
      { s1 with loading := false })
  else
    match s1.mockProducts.find? (fun p => p.id == id) with
    | none =>
      (Except.error (createApiError 404 "Not Found"
          (some ("Product with ID " ++ toString id ++ " not found"))),
        { s1 with loading := false })
    | some p => (Except.ok p, { s1 with loading := false })

/-- `POST /api/products` (`ProductMockService.createProduct`). `now` stands for
the two `new Date()` calls (`createdAt = updatedAt = now`). -/
def createProduct (productData : CreateProduct) (now : Nat) (s : MockState) :
    Except JsError Product × MockState :=
  let s1 : MockState := { s with loading := true }
  let validationErrors := validateProductData productData.toData false
  if validationErrors.length > 0 then
    (Except.error (createApiError 400 "Validation Failed"
        (some (String.intercalate "; " validationErrors))),
      { s1 with loading := false })
  else
    let newProduct : Product :=
      { id := s1.nextId, name := productData.name,
        description := productData.description, price := productData.price,
        category := productData.category, imageUrl := productData.imageUrl,
        active := productData.active.getD true,
        createdAt := now, updatedAt := now }
    let products := s1.mockProducts ++ [newProduct]
    (Except.ok newProduct,
      { mockProducts := products, nextId := s1.nextId + 1,
        subjectCache := products, loading := false })

/-- The merge `{...this.mockProducts[index], ...productData, id,
createdAt: old.createdAt, updatedAt: new Date()}` of `updateProduct`. -/
def mergePatch (old : Product) (patch : UpdateProduct) (id : Int) (now : Nat) :
    Product :=
  { id := id,
    name := patch.name.getD old.name,
    description := match patch.description with
      | some d => some d
      | none => old.description,
    price := patch.price.getD old.price,
    category := patch.category.getD old.category,
    imageUrl := match patch.imageUrl with
      | some u => some u
      | none => old.imageUrl,
    active := patch.active.getD old.active,
    createdAt := old.createdAt,
    updatedAt := now }

/-- `PUT /api/products/{id}` (`ProductMockService.updateProduct`).
`List.findIdx` returns the list's length when no element matches, mirroring
`findIndex() === -1`. -/
def updateProduct (id : Int) (productData : UpdateProduct) (now : Nat)
    (s : MockState) : Except JsError Product × MockState :=
  let s1 : MockState := { s with loading := true }
  if id = 0 || id < 1 then
    (Except.error (createApiError 400 "Bad Request" (some "Invalid product ID")),
      { s1 with loading := false })
  else
    let validationErrors := validateProductData productData true
    if validationErrors.length > 0 then
      (Except.error (createApiError 400 "Validation Failed"
          (some (String.intercalate "; " validationErrors))),
        { s1 with loading := false })
    else
      let index := s1.mockProducts.findIdx (fun p => p.id == id)
      if h : index < s1.mockProducts.length then
        let updatedProduct := mergePatch (s1.mockProducts.get ⟨index, h⟩)
          productData id now
        let products := s1.mockProducts.set index updatedProduct
        (Except.ok updatedProduct,
          { s1 with
              mockProducts := products, subjectCache := products,
              loading := false })
      else
        (Except.error (createApiError 404 "Not Found"
            (some ("Product with ID " ++ toString id ++ " not found"))),
          { s1 with loading := false })

/-- `DELETE /api/products/{id}` (`ProductMockService.deleteProduct`). -/
def deleteProduct (id : Int) (s : MockState) :
    Except JsError Unit × MockState :=
  let s1 : MockState := { s with loading := true }
  if id = 0 || id < 1 then
    (Except.error (createApiError 400 "Bad Request" (some "Invalid product ID")),
      { s1 with loading := false })
  else
    let index := s1.mockProducts.findIdx (fun p => p.id == id)
    if index < s1.mockProducts.length then
      let products := s1.mockProducts.eraseIdx index
      (Except.ok (),
        { s1 with
            mockProducts := products, subjectCache := products,
            loading := false })
    else
      (Except.error (createApiError 404 "Not Found"
          (some ("Product with ID " ++ toString id ++ " not found"))),
        { s1 with loading := false })

/-! ## The listing view's load/delete pipelines
(`ProductListComponent.loadProducts` / `deleteProduct`) -/

/-- Outcome of the `getProducts` fetch as seen by the `timeout(5000)` +
`catchError` stage of `loadProducts`. -/
inductive FetchOutcome where
  | success (r : PaginatedResponse)
  | failure (e : JsError)
  | timedOut
deriving DecidableEq, Repr

/-- The literal fallback page of `loadProducts`:
`of({ data: [], currentPage: 1, pageSize: 10, totalItems: 0, totalPages: 0,
hasNext: false, hasPrevious: false })`. -/
def emptyPageFallback : PaginatedResponse :=
  { data := [], currentPage := 1, pageSize := 10, totalItems := 0,
    totalPages := 0, hasNext := false, hasPrevious := false }

/-- What `loadProducts`'s subscriber receives: `catchError` replaces every
error — `TimeoutError` included — by the empty fallback page. -/
def loadProductsDelivered : FetchOutcome → PaginatedResponse
  | FetchOutcome.success r => r
  | FetchOutcome.failure _ => emptyPageFallback
  | FetchOutcome.timedOut => emptyPageFallback

/-- What the component's `deleteProduct` subscriber receives: the pipe is
`takeUntil(this.destroy$)` only — no `catchError`, failures pass through. -/
def deleteProductDelivered (o : Except JsError Unit) : Except JsError Unit := o

/-- What the form component's `createProduct` subscriber receives
(`pipe(takeUntil(this.destroy$))`, no `catchError`). -/
def createProductDelivered (o : Except JsError Product) :
    Except JsError Product := o

/-- What the form component's `updateProduct` subscriber receives
(`pipe(takeUntil(this.destroy$))`, no `catchError`). -/
def updateProductDelivered (o : Except JsError Product) :
    Except JsError Product := o

/-! ## Concrete values used in the statements below -/

/-- The full unfiltered first page of the seed catalog. -/
def firstPageResponse : PaginatedResponse :=
  { data := seedProducts, currentPage := 1, pageSize := 10, totalItems := 8,
    totalPages := 1, hasNext := false, hasPrevious := false }

/-- A creation payload violating three distinct field rules. -/
def badCreateInput : CreateProduct :=
  { name := "ab", price := -100, category := "INVALID" }

/-- The three violation messages of `badCreateInput`, in source order. -/
def badCreateMessages : List String :=
  ["Name must be at least 3 characters",
   "Price must be greater than or equal to 0",
   "Category must be one of: ELETRONICOS, ROUPAS, LIVROS, CASA, ESPORTES, OUTROS"]

/-- A creation payload whose name has untrimmed length 4 but trimmed length 2. -/
def paddedNameInput : CreateProduct :=
  { name := " ab ", price := 10000, category := "ELETRONICOS" }

/-- An update payload with a negative price. -/
def negativePricePatch : UpdateProduct := { price := some (-100) }

/-! ## Helper lemmas -/

theorem lt_jsCeilDiv_iff {t b p : Int} (hb : 0 < b) :
    p < jsCeilDiv t b ↔ p * b < t := by
  unfold jsCeilDiv
  rw [if_pos hb.le, lt_neg, Int.ediv_lt_iff_lt_mul hb, neg_mul, neg_lt_neg_iff]

theorem le_jsCeilDiv_mul {t b : Int} (hb : 0 < b) : t ≤ jsCeilDiv t b * b := by
  unfold jsCeilDiv
  rw [if_pos hb.le, neg_mul]
  have h := Int.ediv_mul_le (-t) hb.ne'
  linarith

theorem jsCeilDiv_eq_ceil {t b : Int} (hb : 0 < b) :
    jsCeilDiv t b = Int.ceil ((t : ℚ) / (b : ℚ)) := by
  unfold jsCeilDiv
  rw [if_pos hb.le]
  have hb2 : ((b.toNat : ℕ) : ℚ) = (b : ℚ) := by
    rw [← Int.cast_natCast, Int.toNat_of_nonneg hb.le]
  have h2 : ((-t) : ℤ) / b = Int.floor (((-t : ℤ) : ℚ) / ((b.toNat : ℕ) : ℚ)) := by
    rw [Rat.floor_intCast_div_natCast, Int.toNat_of_nonneg hb.le]
  rw [h2, ← Int.ceil_neg]
  congr 1
  rw [hb2]
  push_cast
  ring

theorem jsSlice_length_le {α : Type} (l : List α) {start stop : Int}
    (h0 : 0 ≤ start) (h1 : start ≤ stop) :
    (jsSlice l start stop).length ≤ (stop - start).toNat := by
  unfold jsSlice
  simp only [List.length_take, List.length_drop]
  omega

theorem jsSlice_eq_nil {α : Type} (l : List α) {start stop : Int}
    (h0 : 0 ≤ start) (h : (l.length : Int) ≤ start) :
    jsSlice l start stop = [] := by
  have hlen : (jsSlice l start stop).length = 0 := by
    unfold jsSlice
    simp only [List.length_take, List.length_drop]
    omega
  exact List.length_eq_zero.mp hlen

theorem mem_applyFilters (f : Option ProductFilter) (l : List Product)
    (p : Product) :
    p ∈ applyFilters f l ↔ p ∈ l ∧ matchesFilter f p = true := by
  unfold applyFilters matchesFilter
  cases hc : f.bind ProductFilter.category <;>
    cases hm : f.bind ProductFilter.minPrice <;>
      cases hM : f.bind ProductFilter.maxPrice <;>
        cases ha : f.bind ProductFilter.active <;>
          cases hs : f.bind ProductFilter.search <;>
            simp only [List.mem_filter, Bool.and_eq_true, decide_eq_true_eq,
              Bool.true_and, Bool.and_true] <;>
              (try split_ifs) <;>
                (try simp only [List.mem_filter, Bool.and_eq_true,
                  decide_eq_true_eq, true_and, and_true]) <;>
                  tauto

theorem find?_eq_get_findIdx {α : Type} (p : α → Bool) (l : List α) (a : α)
    (h : l.find? p = some a) :
    ∃ hlt : l.findIdx p < l.length, l.get ⟨l.findIdx p, hlt⟩ = a := by
  induction l with
  | nil => simp at h
  | cons x xs ih =>
    by_cases hx : p x
    · rw [List.find?_cons_of_pos _ hx] at h
      injection h with h
      subst h
      refine ⟨by simp [List.findIdx_cons, hx], ?_⟩
      simp [List.findIdx_cons, hx]
    · rw [List.find?_cons_of_neg _ hx] at h
      obtain ⟨hlt, hget⟩ := ih h
      have hidx : (x :: xs).findIdx p = xs.findIdx p + 1 := by
        simp [List.findIdx_cons, hx]
      refine ⟨?_, ?_⟩
      · rw [hidx]
        simp only [List.length_cons]
        omega
      · simp only [hidx, List.get_cons_succ]
        exact hget

theorem getProducts_error_frame (f : Option ProductFilter)
    (pag : Option PaginationParams) (s : MockState) (e : JsError)
    (h : (getProducts f pag s).1 = Except.error e) :
    (getProducts f pag s).2.mockProducts = s.mockProducts ∧
    (getProducts f pag s).2.subjectCache = s.subjectCache := by
  simp only [getProducts] at h ⊢
  split at h <;> (try split_ifs) <;> simp_all

theorem getProductById_error_frame (id : Int) (s : MockState) (e : JsError)
    (h : (getProductById id s).1 = Except.error e) :
    (getProductById id s).2.mockProducts = s.mockProducts ∧
    (getProductById id s).2.subjectCache = s.subjectCache := by
  simp only [getProductById] at h ⊢
  split at h
  · split_ifs <;> simp_all
  · split at h <;> (try split_ifs) <;> simp_all

theorem createProduct_error_frame (d : CreateProduct) (now : Nat)
    (s : MockState) (e : JsError)
    (h : (createProduct d now s).1 = Except.error e) :
    (createProduct d now s).2.mockProducts = s.mockProducts ∧
    (createProduct d now s).2.subjectCache = s.subjectCache := by
  simp only [createProduct] at h ⊢
  split at h <;> (try split_ifs) <;> simp_all

theorem updateProduct_error_frame (id : Int) (patch : UpdateProduct)
    (now : Nat) (s : MockState) (e : JsError)
    (h : (updateProduct id patch now s).1 = Except.error e) :
    (updateProduct id patch now s).2.mockProducts = s.mockProducts ∧
    (updateProduct id patch now s).2.subjectCache = s.subjectCache := by
  simp only [updateProduct] at h ⊢
  split at h
  · split_ifs <;> simp_all
  · split at h
    · split_ifs <;> simp_all
    · split at h <;> (try split_ifs) <;> simp_all

theorem deleteProduct_error_frame (id : Int) (s : MockState) (e : JsError)
    (h : (deleteProduct id s).1 = Except.error e) :
    (deleteProduct id s).2.mockProducts = s.mockProducts ∧
    (deleteProduct id s).2.subjectCache = s.subjectCache := by
  simp only [deleteProduct] at h ⊢
  split at h
  · split_ifs <;> simp_all
  · split at h <;> (try split_ifs) <;> simp_all

theorem getProducts_ok_shape (f : Option ProductFilter) (page ps : Int)
    (s : MockState) (hp : 1 ≤ page) (hps0 : ¬ps = 0) :
    getProducts f (some { page := some page, pageSize := some ps }) s =
      (Except.ok
        { data := jsSlice (applyFilters f s.mockProducts)
            ((page - 1) * ps) ((page - 1) * ps + ps),
          currentPage := page, pageSize := ps,
          totalItems := ((applyFilters f s.mockProducts).length : Int),
          totalPages := jsCeilDiv ((applyFilters f s.mockProducts).length : Int) ps,
          hasNext := decide ((page - 1) * ps + ps <
            ((applyFilters f s.mockProducts).length : Int)),
          hasPrevious := decide (page > 1) },
       { s with
          subjectCache := jsSlice (applyFilters f s.mockProducts)
            ((page - 1) * ps) ((page - 1) * ps + ps),
          loading := false }) := by
  have hpage : jsOrDefault (some page) 1 = page := by
    simp only [jsOrDefault]
    rw [if_neg (by omega)]
  have hsize : jsOrDefault (some ps) 10 = ps := by
    simp only [jsOrDefault]
    rw [if_neg hps0]
  simp only [getProducts, Option.bind, hpage, hsize]
  rw [if_neg (by omega : ¬page < 1)]

/-- C1: for every filter and every pagination request with `page ≥ 1` and
`pageSize ≥ 1`, the successful `getProducts` response satisfies
`totalPages = ceil(totalItems / pageSize)`, `data.length ≤ pageSize`,
`hasNext ↔ page < totalPages`, `hasPrevious ↔ page > 1`, and `totalItems` is
the size of the filtered set before slicing. -/
theorem list_pagination_metadata (f : Option ProductFilter) (page ps : Int)
    (s : MockState) (resp : PaginatedResponse)
    (hp : 1 ≤ page) (hps : 1 ≤ ps)
    (hok : (getProducts f (some { page := some page, pageSize := some ps })
      s).1 = Except.ok resp) :
    resp.totalPages = Int.ceil ((resp.totalItems : ℚ) / (ps : ℚ)) ∧
    (resp.data.length : Int) ≤ ps ∧
    (resp.hasNext = true ↔ resp.currentPage < resp.totalPages) ∧
    (resp.hasPrevious = true ↔ 1 < resp.currentPage) ∧
    resp.totalItems = ((applyFilters f s.mockProducts).length : Int) := by
  have hps0 : ¬ps = 0 := by omega
  rw [getProducts_ok_shape f page ps s hp hps0] at hok
  simp only [Except.ok.injEq] at hok
  subst hok
  have hbpos : (0 : Int) < ps := by omega
  refine ⟨?_, ?_, ?_, ?_, rfl⟩
  · exact jsCeilDiv_eq_ceil hbpos
  · have hstart : (0 : Int) ≤ (page - 1) * ps :=
      mul_nonneg (by omega) (by omega)
    have hlen := jsSlice_length_le (applyFilters f s.mockProducts)
      hstart (by omega : (page - 1) * ps ≤ (page - 1) * ps + ps)
    simp only at hlen ⊢
    omega
  · simp only [decide_eq_true_eq]
    rw [lt_jsCeilDiv_iff hbpos]
    constructor
    · intro h
      have : page * ps = (page - 1) * ps + ps := by ring
      omega
    · intro h
      have : page * ps = (page - 1) * ps + ps := by ring
      omega
  · simp only [decide_eq_true_eq, gt_iff_lt]


/-- C1 witness: the metadata properties hold concretely for the unfiltered
seed listing at page 1, pageSize 10. -/
theorem list_pagination_metadata_witness :
    firstPageResponse.totalPages =
      Int.ceil ((firstPageResponse.totalItems : ℚ) / ((10 : Int) : ℚ)) ∧
    (firstPageResponse.data.length : Int) ≤ 10 ∧
    (firstPageResponse.hasNext = true ↔
      firstPageResponse.currentPage < firstPageResponse.totalPages) ∧
    (firstPageResponse.hasPrevious = true ↔
      1 < firstPageResponse.currentPage) ∧
    firstPageResponse.totalItems =
      ((applyFilters none initialState.mockProducts).length : Int) :=
  list_pagination_metadata none 1 10 initialState firstPageResponse
    (by norm_num) (by norm_num) (by decide)

/-- C10: a page number strictly greater than totalPages (with `page ≥ 1`,
`pageSize ≥ 1`) is not an error: `getProducts` succeeds with empty data, the
requested `currentPage`, the filtered set's `totalItems`/`totalPages`,
`hasNext = false`, and `hasPrevious` true exactly when `page > 1`. -/
theorem out_of_range_page_succeeds (f : Option ProductFilter) (page ps : Int)
    (s : MockState) (hp : 1 ≤ page) (hps : 1 ≤ ps)
    (hover : Int.ceil (((applyFilters f s.mockProducts).length : ℚ) / (ps : ℚ))
      < page) :
    (getProducts f (some { page := some page, pageSize := some ps }) s).1 =
      Except.ok
        { data := [], currentPage := page, pageSize := ps,
          totalItems := ((applyFilters f s.mockProducts).length : Int),
          totalPages := jsCeilDiv ((applyFilters f s.mockProducts).length : Int)
            ps,
          hasNext := false, hasPrevious := decide (page > 1) } := by
  have hbpos : (0 : Int) < ps := by omega
  have hover2 : jsCeilDiv ((applyFilters f s.mockProducts).length : Int) ps
      < page := by
    rw [jsCeilDiv_eq_ceil hbpos]
    exact_mod_cast hover
  rw [getProducts_ok_shape f page ps s hp (by omega)]
  have hceil :=
    @le_jsCeilDiv_mul ((applyFilters f s.mockProducts).length : Int) ps hbpos
  have hstart : ((applyFilters f s.mockProducts).length : Int) ≤
      (page - 1) * ps := by
    calc ((applyFilters f s.mockProducts).length : Int)
        ≤ jsCeilDiv ((applyFilters f s.mockProducts).length : Int) ps * ps :=
          hceil
      _ ≤ (page - 1) * ps := by
          apply mul_le_mul_of_nonneg_right (by omega) (by omega)
  have hnil := @jsSlice_eq_nil Product (applyFilters f s.mockProducts)
    ((page - 1) * ps) ((page - 1) * ps + ps)
    (mul_nonneg (by omega : (0:Int) ≤ page - 1) (by omega : (0:Int) ≤ ps))
    hstart
  have hnext : decide ((page - 1) * ps + ps <
      ((applyFilters f s.mockProducts).length : Int)) = false := by
    simp only [decide_eq_false_iff_not, not_lt]
    omega
  rw [hnil, hnext]

/-- C10 witness: page 5 of the unfiltered 8-item seed (totalPages = 1)
succeeds with empty data and hasPrevious = true. -/
theorem out_of_range_page_succeeds_witness :
    (getProducts none (some { page := some 5, pageSize := some 10 })
        initialState).1 =
      Except.ok
        { data := [], currentPage := 5, pageSize := 10,
          totalItems := ((applyFilters none initialState.mockProducts).length :
            Int),
          totalPages := jsCeilDiv
            ((applyFilters none initialState.mockProducts).length : Int) 10,
          hasNext := false, hasPrevious := decide ((5 : Int) > 1) } :=
  out_of_range_page_succeeds none 5 10 initialState (by norm_num) (by norm_num)
    (by
      rw [show (applyFilters none initialState.mockProducts).length = 8
        from by decide]
      rw [show ((8 : ℕ) : ℚ) = ((8 : Int) : ℚ) from by norm_cast]
      rw [← jsCeilDiv_eq_ceil (by norm_num : (0:Int) < 10)]
      decide)

/-- C2 counterexample: on the seed, `list({category: "ELETRONICOS",
active: true})` returns the 4 active electronics products (ids 1–4), so it
does not return 3 items as the claim states. -/
theorem seed_electronics_count_counterexample :
    (getProducts (some { category := some "ELETRONICOS", active := some true })
        none initialState).1 =
      Except.ok
        { data := [product1, product2, product3, product4], currentPage := 1,
          pageSize := 10, totalItems := 4, totalPages := 1, hasNext := false,
          hasPrevious := false } ∧
    [product1, product2, product3, product4].length ≠ 3 :=
  ⟨by decide, by decide⟩

/-- C2 (amended): `list({active: true})` on the seed returns 7 items;
`list({category: "ELETRONICOS", active: true})` returns exactly the 4 active
electronics items of the seed (products 1–4); and in general all specified
filters are conjoined: a product is in the filtered list iff it is in the
input and satisfies every specified predicate. -/
theorem seed_filtering_conjunctive :
    (getProducts (some { active := some true }) none initialState).1 =
      Except.ok
        { data := [product1, product2, product3, product4, product5, product6,
            product7], currentPage := 1, pageSize := 10, totalItems := 7,
          totalPages := 1, hasNext := false, hasPrevious := false } ∧
    (getProducts (some { category := some "ELETRONICOS", active := some true })
        none initialState).1 =
      Except.ok
        { data := [product1, product2, product3, product4], currentPage := 1,
          pageSize := 10, totalItems := 4, totalPages := 1, hasNext := false,
          hasPrevious := false } ∧
    ∀ (f : Option ProductFilter) (l : List Product) (p : Product),
      p ∈ applyFilters f l ↔ p ∈ l ∧ matchesFilter f p = true :=
  ⟨by decide, by decide, mem_applyFilters⟩

/-- C2 witness: the conjunction characterization instantiated on the seed. -/
theorem seed_filtering_conjunctive_witness :
    product1 ∈ applyFilters
      (some { category := some "ELETRONICOS", active := some true })
      seedProducts :=
  (seed_filtering_conjunctive.2.2
    (some { category := some "ELETRONICOS", active := some true })
    seedProducts product1).mpr (by decide)

theorem createProduct_fails_of_invalid (d : CreateProduct) (now : Nat)
    (s : MockState) (h : validateProductData d.toData false ≠ []) :
    (createProduct d now s).1 =
      Except.error (createApiError 400 "Validation Failed"
        (some (String.intercalate "; " (validateProductData d.toData false)))) := by
  simp only [createProduct]
  rw [if_pos (List.length_pos.mpr h)]

/-- C3: whenever a creation payload violates field rules, `createProduct`
fails with Validation Failed carrying ALL violated-rule messages joined by
"; " (not only the first); concretely, `create({name: "ab", price: -1,
category: "INVALID"})` yields exactly the three distinct violations (name too
short, negative price, invalid category). -/
theorem create_validation_collects_all_messages :
    (∀ (d : CreateProduct) (now : Nat) (s : MockState),
      validateProductData d.toData false ≠ [] →
      (createProduct d now s).1 =
        Except.error (createApiError 400 "Validation Failed"
          (some (String.intercalate "; "
            (validateProductData d.toData false))))) ∧
    validateProductData badCreateInput.toData false = badCreateMessages ∧
    badCreateMessages.Nodup ∧ badCreateMessages.length = 3 ∧
    (createProduct badCreateInput 0 initialState).1 =
      Except.error (createApiError 400 "Validation Failed"
        (some (String.intercalate "; " badCreateMessages))) :=
  ⟨createProduct_fails_of_invalid, by decide, by decide, by decide, by decide⟩

/-- C3 witness: the general part applied to the concrete bad payload. -/
theorem create_validation_collects_all_messages_witness :
    (createProduct badCreateInput 7 initialState).1 =
      Except.error (createApiError 400 "Validation Failed"
        (some (String.intercalate "; "
          (validateProductData badCreateInput.toData false)))) :=
  create_validation_collects_all_messages.1 badCreateInput 7 initialState
    (by decide)

/-- C4 counterexample: `page = 0` is below 1, yet the list call succeeds
(JavaScript `pagination?.page || 1` treats 0 as falsy and substitutes the
default page 1), instead of failing with the structured InvalidArgument
error. -/
theorem page_zero_succeeds_counterexample :
    (getProducts none (some { page := some 0, pageSize := some 10 })
        initialState).1 = Except.ok firstPageResponse :=
  by decide

/-- C4 (amended): a pagination request with `page = 0` is coerced to the
default page 1 and succeeds; a negative page fails, but with the bare
`Error("Page must be greater than 0")`, which is not the structured
ApiError shape used for `id < 1`. -/
theorem page_validation_behavior :
    (∀ (f : Option ProductFilter) (pz : Option Int) (s : MockState)
        (page : Int), page < 0 →
      (getProducts f (some { page := some page, pageSize := pz }) s).1 =
        Except.error (JsError.plainError "Page must be greater than 0")) ∧
    (∀ (f : Option ProductFilter) (pz : Option Int) (s : MockState),
      getProducts f (some { page := some 0, pageSize := pz }) s =
        getProducts f (some { page := some 1, pageSize := pz }) s) ∧
    (∀ (c : Int) (m : String) (d : Option String) (pth : String),
      JsError.plainError "Page must be greater than 0" ≠
        JsError.apiError c m d pth) := by
  refine ⟨?_, ?_, ?_⟩
  · intro f pz s page hneg
    have hpage : (if page = 0 then (1 : Int) else page) = page :=
      if_neg (by omega)
    simp only [getProducts, Option.bind, jsOrDefault, hpage]
    rw [if_pos (by omega : page < 1)]
  · intro f pz s
    simp only [getProducts, Option.bind, jsOrDefault]
    norm_num
  · intro c m d pth h
    exact JsError.noConfusion h

/-- C4 witness: page -1 on the seed fails with the bare Error. -/
theorem page_validation_behavior_witness :
    (getProducts none (some { page := some (-1), pageSize := some 10 })
        initialState).1 =
      Except.error (JsError.plainError "Page must be greater than 0") :=
  page_validation_behavior.1 none (some 10) initialState (-1) (by norm_num)

/-- C5 counterexample: the name `" ab "` has trimmed length 2 (< 3), yet
create's validation passes it — the minimum-length rule is applied to the
untrimmed name — and `createProduct` succeeds. -/
theorem untrimmed_name_length_counterexample :
    validateProductData paddedNameInput.toData false = [] ∧
    (jsTrim " ab ").length = 2 ∧
    (createProduct paddedNameInput 5 initialState).1 =
      Except.ok
        { id := 9, name := " ab ", description := none, price := 10000,
          category := "ELETRONICOS", imageUrl := none, active := true,
          createdAt := 5, updatedAt := 5 } :=
  ⟨by decide, by decide, by decide⟩

/-- C5 (amended): the empty-name rule uses the trimmed name, but the 3–200
length bounds use the untrimmed name: for a create payload the name block
passes exactly when the trimmed length is nonzero and the UNtrimmed length is
between 3 and 200; any name-block violation still makes `createProduct` fail
with Validation Failed. -/
theorem name_validation_uses_untrimmed_bounds :
    (∀ n : String,
      nameValidationErrors (some n) false = [] ↔
        (jsTrim n).length ≠ 0 ∧ 3 ≤ n.length ∧ n.length ≤ 200) ∧
    (∀ (d : CreateProduct) (now : Nat) (s : MockState),
      nameValidationErrors (some d.name) false ≠ [] →
      ∃ det, (createProduct d now s).1 =
        Except.error (createApiError 400 "Validation Failed" (some det))) := by
  constructor
  · intro n
    simp only [nameValidationErrors, Bool.not_false, Bool.true_or, if_true]
    split_ifs with h1 h2 h3
    · simp only [Bool.or_eq_true, decide_eq_true_eq] at h1
      constructor
      · intro h
        exact absurd h (by simp)
      · rintro ⟨ht, h3n, h200⟩
        rcases h1 with h | h
        · subst h
          simp at h3n
        · exact ht h
    · constructor
      · intro h
        exact absurd h (by simp)
      · rintro ⟨ht, h3n, h200⟩
        omega
    · constructor
      · intro h
        exact absurd h (by simp)
      · rintro ⟨ht, h3n, h200⟩
        omega
    · simp only [Bool.or_eq_true, decide_eq_true_eq, not_or] at h1
      simp only [true_iff]
      exact ⟨h1.2, by omega, by omega⟩
  · intro d now s h
    refine ⟨String.intercalate "; " (validateProductData d.toData false), ?_⟩
    apply createProduct_fails_of_invalid
    intro hv
    apply h
    have : nameValidationErrors d.toData.name false = [] := by
      simp only [validateProductData] at hv
      rcases List.append_eq_nil.mp
        (List.append_eq_nil.mp (List.append_eq_nil.mp hv).1).1 with ⟨hn, _⟩
      exact hn
    simpa [CreateProduct.toData] using this

/-- C5 witness: a name of untrimmed length 10 and nonempty trim passes. -/
theorem name_validation_uses_untrimmed_bounds_witness :
    nameValidationErrors (some "Valid Name") false = [] :=
  (name_validation_uses_untrimmed_bounds.1 "Valid Name").mpr (by decide)

/-- C6: every failing operation of the engine — list, get, create, update,
delete — leaves the in-memory dataset (`mockProducts`) and the Change
Notification Bus cache (`subjectCache`) exactly as they were before the
call. -/
theorem failed_operations_leave_state_unchanged :
    (∀ (f : Option ProductFilter) (pag : Option PaginationParams)
        (s : MockState) (e : JsError),
      (getProducts f pag s).1 = Except.error e →
      (getProducts f pag s).2.mockProducts = s.mockProducts ∧
      (getProducts f pag s).2.subjectCache = s.subjectCache) ∧
    (∀ (id : Int) (s : MockState) (e : JsError),
      (getProductById id s).1 = Except.error e →
      (getProductById id s).2.mockProducts = s.mockProducts ∧
      (getProductById id s).2.subjectCache = s.subjectCache) ∧
    (∀ (d : CreateProduct) (now : Nat) (s : MockState) (e : JsError),
      (createProduct d now s).1 = Except.error e →
      (createProduct d now s).2.mockProducts = s.mockProducts ∧
      (createProduct d now s).2.subjectCache = s.subjectCache) ∧
    (∀ (id : Int) (patch : UpdateProduct) (now : Nat) (s : MockState)
        (e : JsError),
      (updateProduct id patch now s).1 = Except.error e →
      (updateProduct id patch now s).2.mockProducts = s.mockProducts ∧
      (updateProduct id patch now s).2.subjectCache = s.subjectCache) ∧
    (∀ (id : Int) (s : MockState) (e : JsError),
      (deleteProduct id s).1 = Except.error e →
      (deleteProduct id s).2.mockProducts = s.mockProducts ∧
      (deleteProduct id s).2.subjectCache = s.subjectCache) :=
  ⟨getProducts_error_frame, getProductById_error_frame,
   createProduct_error_frame, updateProduct_error_frame,
   deleteProduct_error_frame⟩

/-- C6 witness: a failing delete (id 0) leaves the seed state unchanged. -/
theorem failed_operations_leave_state_unchanged_witness :
    (deleteProduct 0 initialState).2.mockProducts =
      initialState.mockProducts ∧
    (deleteProduct 0 initialState).2.subjectCache =
      initialState.subjectCache :=
  failed_operations_leave_state_unchanged.2.2.2.2 0 initialState
    (createApiError 400 "Bad Request" (some "Invalid product ID")) (by decide)

/-- C8: the listing view's load path converts every failed or timed-out list
fetch into the empty page (data = [], totalItems = 0, totalPages = 0,
hasNext = false, hasPrevious = false) instead of propagating, while the
mutation pipelines (create, update, delete) deliver failures unchanged to
their subscribers. -/
theorem load_failure_empty_page_mutations_propagate :
    (∀ e : JsError, loadProductsDelivered (FetchOutcome.failure e) =
      emptyPageFallback) ∧
    loadProductsDelivered FetchOutcome.timedOut = emptyPageFallback ∧
    emptyPageFallback.data = [] ∧ emptyPageFallback.totalItems = 0 ∧
    emptyPageFallback.totalPages = 0 ∧ emptyPageFallback.hasNext = false ∧
    emptyPageFallback.hasPrevious = false ∧
    (∀ r, loadProductsDelivered (FetchOutcome.success r) = r) ∧
    (∀ o, deleteProductDelivered o = o) ∧
    (∀ o, createProductDelivered o = o) ∧
    (∀ o, updateProductDelivered o = o) :=
  ⟨fun _ => rfl, rfl, rfl, rfl, rfl, rfl, rfl, fun _ => rfl, fun _ => rfl,
   fun _ => rfl, fun _ => rfl⟩

theorem updateProduct_ok_merge (id : Int) (patch : UpdateProduct) (now : Nat)
    (s : MockState) (prod : Product) (s2 : MockState)
    (h : updateProduct id patch now s = (Except.ok prod, s2)) :
    ∃ hlt : s.mockProducts.findIdx (fun p => p.id == id) <
        s.mockProducts.length,
      prod = mergePatch (s.mockProducts.get
        ⟨s.mockProducts.findIdx (fun p => p.id == id), hlt⟩) patch id now := by
  revert h
  simp only [updateProduct]
  split
  · intro h
    simp [Prod.ext_iff] at h
  · split
    · intro h
      simp [Prod.ext_iff] at h
    · split
      · rename_i hlt
        intro h
        simp only [Prod.mk.injEq, Except.ok.injEq] at h
        exact ⟨hlt, h.1.symm⟩
      · intro h
        simp [Prod.ext_iff] at h

theorem updateProduct_ok_old (s : MockState) (id : Int)
    (patch : UpdateProduct) (now : Nat) (old prod : Product) (s2 : MockState)
    (hfind : s.mockProducts.find? (fun p => p.id == id) = some old)
    (h : updateProduct id patch now s = (Except.ok prod, s2)) :
    prod = mergePatch old patch id now ∧ old.id = id := by
  obtain ⟨hlt, hmerge⟩ := updateProduct_ok_merge id patch now s prod s2 h
  obtain ⟨hlt2, hget⟩ := find?_eq_get_findIdx _ _ _ hfind
  have hid : old.id = id := by
    have := List.find?_some hfind
    simpa using this
  refine ⟨?_, hid⟩
  rw [hmerge, hget]

/-- C7: an empty-patch update of an existing product returns a product whose
fields all equal the stored product's fields except `updatedAt`, which is set
to the call's `now` (and so advances whenever `now` is later); moreover, for
every update whatsoever, the returned product's `id` and `createdAt` equal
the stored product's. -/
theorem update_empty_patch_and_immutable_fields :
    (∀ (s : MockState) (id : Int) (now : Nat) (old prod : Product)
        (s2 : MockState),
      s.mockProducts.find? (fun p => p.id == id) = some old →
      updateProduct id {} now s = (Except.ok prod, s2) →
      prod.id = old.id ∧ prod.createdAt = old.createdAt ∧
      prod.name = old.name ∧ prod.description = old.description ∧
      prod.price = old.price ∧ prod.category = old.category ∧
      prod.imageUrl = old.imageUrl ∧ prod.active = old.active ∧
      prod.updatedAt = now ∧
      (old.updatedAt < now → old.updatedAt < prod.updatedAt)) ∧
    (∀ (s : MockState) (id : Int) (patch : UpdateProduct) (now : Nat)
        (old prod : Product) (s2 : MockState),
      s.mockProducts.find? (fun p => p.id == id) = some old →
      updateProduct id patch now s = (Except.ok prod, s2) →
      prod.id = old.id ∧ prod.createdAt = old.createdAt) := by
  constructor
  · intro s id now old prod s2 hfind h
    obtain ⟨hmerge, hid⟩ :=
      updateProduct_ok_old s id {} now old prod s2 hfind h
    subst hmerge
    simp [mergePatch, hid]
  · intro s id patch now old prod s2 hfind h
    obtain ⟨hmerge, hid⟩ :=
      updateProduct_ok_old s id patch now old prod s2 hfind h
    subst hmerge
    simp [mergePatch, hid]

/-- C7 witness: updating product 1 of the seed with the empty patch at a
later `now` keeps every field except `updatedAt`. -/
theorem update_empty_patch_witness :
    ({ product1 with updatedAt := 20250101000000 } : Product).id =
      product1.id ∧
    ({ product1 with updatedAt := 20250101000000 } : Product).createdAt =
      product1.createdAt ∧
    ({ product1 with updatedAt := 20250101000000 } : Product).name =
      product1.name ∧
    ({ product1 with updatedAt := 20250101000000 } : Product).description =
      product1.description ∧
    ({ product1 with updatedAt := 20250101000000 } : Product).price =
      product1.price ∧
    ({ product1 with updatedAt := 20250101000000 } : Product).category =
      product1.category ∧
    ({ product1 with updatedAt := 20250101000000 } : Product).imageUrl =
      product1.imageUrl ∧
    ({ product1 with updatedAt := 20250101000000 } : Product).active =
      product1.active ∧
    ({ product1 with updatedAt := 20250101000000 } : Product).updatedAt =
      20250101000000 ∧
    (product1.updatedAt < 20250101000000 →
      product1.updatedAt <
        ({ product1 with
            updatedAt := 20250101000000 } : Product).updatedAt) :=
  update_empty_patch_and_immutable_fields.1 initialState 1
    20250101000000 product1 ({ product1 with updatedAt := 20250101000000 })
    (updateProduct 1 {} 20250101000000 initialState).2 (by decide) (by decide)

/-- C9 counterexample: id 0 does not exist in the seed, and the patch
`{price: -1}` is invalid, yet `updateProduct(0, …)` fails with the
Bad Request (invalid-id) error, not with Validation Failed. -/
theorem update_invalid_id_before_validation_counterexample :
    (updateProduct 0 negativePricePatch 0 initialState).1 =
      Except.error (createApiError 400 "Bad Request"
        (some "Invalid product ID")) ∧
    initialState.mockProducts.all (fun p => p.id != 0) = true ∧
    validateProductData negativePricePatch true ≠ [] ∧
    createApiError 400 "Bad Request" (some "Invalid product ID") ≠
      createApiError 400 "Validation Failed"
        (some "Price must be greater than or equal to 0") :=
  ⟨by decide, by decide, by decide, by decide⟩

/-- C9 (amended): for ids passing the structural check (`id ≥ 1`), update
validates the patch before checking existence — an invalid patch yields
Validation Failed (with the joined messages) regardless of whether the id
exists — and a Not Found failure can only arise when the patch passed
validation. -/
theorem update_validates_before_existence :
    (∀ (id : Int) (patch : UpdateProduct) (now : Nat) (s : MockState),
      1 ≤ id → validateProductData patch true ≠ [] →
      (updateProduct id patch now s).1 =
        Except.error (createApiError 400 "Validation Failed"
          (some (String.intercalate "; " (validateProductData patch true))))) ∧
    (∀ (id : Int) (patch : UpdateProduct) (now : Nat) (s : MockState)
        (d : Option String),
      (updateProduct id patch now s).1 =
        Except.error (createApiError 404 "Not Found" d) →
      validateProductData patch true = []) := by
  constructor
  · intro id patch now s hid hv
    simp only [updateProduct]
    have hcond : ¬((decide (id = 0) || decide (id < 1)) = true) := by
      simp only [Bool.or_eq_true, decide_eq_true_eq]
      omega
    rw [if_neg hcond]
    rw [if_pos (List.length_pos.mpr hv)]
  · intro id patch now s d h
    by_cases hid : (id = 0 ∨ id < 1)
    · exfalso
      revert h
      simp only [updateProduct]
      have hcond : (decide (id = 0) || decide (id < 1)) = true := by
        simp only [Bool.or_eq_true, decide_eq_true_eq]
        omega
      rw [if_pos hcond]
      intro h
      simp only [Except.error.injEq, createApiError,
        JsError.apiError.injEq] at h
      exact absurd h.2.1 (by decide)
    · by_cases hv : validateProductData patch true = []
      · exact hv
      · exfalso
        revert h
        simp only [updateProduct]
        have hcond : ¬((decide (id = 0) || decide (id < 1)) = true) := by
          simp only [Bool.or_eq_true, decide_eq_true_eq]
          omega
        rw [if_neg hcond]
        rw [if_pos (List.length_pos.mpr hv)]
        intro h
        simp only [Except.error.injEq, createApiError,
          JsError.apiError.injEq] at h
        exact absurd h.2.1 (by decide)

/-- C9 witness: id 999 does not exist in the seed, yet the invalid patch
makes the update fail with Validation Failed, not Not Found. -/
theorem update_validates_before_existence_witness :
    (updateProduct 999 negativePricePatch 0 initialState).1 =
      Except.error (createApiError 400 "Validation Failed"
        (some (String.intercalate "; "
          (validateProductData negativePricePatch true)))) :=
  update_validates_before_existence.1 999 negativePricePatch 0 initialState
    (by norm_num) (by decide)

/-- C8 witness: a concrete failed fetch is replaced by the empty page. -/
theorem load_failure_empty_page_witness :
    loadProductsDelivered
      (FetchOutcome.failure (JsError.plainError "network down")) =
      emptyPageFallback :=
  load_failure_empty_page_mutations_propagate.1
    (JsError.plainError "network down")
